import Mathlib

/-!
# PeerCall (`app.js`): a shallow embedding of the call-session client

The script keeps its session in module-level variables (`peer`, `currentCall`,
`localStream`, ...), in a handful of DOM elements and in two `localStorage`
keys.  Here all of that is one record `State`; every function of the script
becomes a function on `State`.  Calls into collaborators (PeerJS, the media
devices, timers) are recorded in `State.effects` / `State.scheduled`, and what
a collaborator answers (a media stream or a failure, a call handle or nothing)
is an explicit argument of the function that asks for it.

A JavaScript exception leaves the assignments made before it in place, so a
function that can throw returns an `Outcome`: the state reached, and the error
if one escaped.

An `async` function runs up to its `await`, and runs on when the awaited answer
arrives, in the state the events taken meanwhile have left.  `acceptIncomingCall`
is given in these two halves (`acceptIncomingCallBegin`, `acceptIncomingCallResume`)
as well as in one step.
-/

namespace PeerCall

/-! ## Strings: `trim` and the e-mail regular expression -/

/-- White space in the sense of the JavaScript `\s` class and of `String.prototype.trim`. -/
def isJsWhitespace (c : Char) : Bool :=
  let n := c.toNat
  n == 9 || n == 10 || n == 11 || n == 12 || n == 13 || n == 32 || n == 160 ||
  n == 0x1680 || (0x2000 ≤ n && n ≤ 0x200a) || n == 0x2028 || n == 0x2029 ||
  n == 0x202f || n == 0x205f || n == 0x3000 || n == 0xfeff

/-- The characters of `s.trim()`. -/
def trimChars (cs : List Char) : List Char :=
  ((cs.dropWhile isJsWhitespace).reverse.dropWhile isJsWhitespace).reverse

/-- JavaScript `s.trim()`. -/
def jsTrim (s : String) : String := ⟨trimChars s.data⟩

/-- Regular expressions over characters, as far as `emailRegex` needs them. -/
inductive Regex where
  | never : Regex
  | empty : Regex
  | cls (p : Char → Bool) : Regex
  | seq (a b : Regex) : Regex
  | alt (a b : Regex) : Regex
  | star (a : Regex) : Regex

namespace Regex

/-- Does the expression accept the empty word? -/
def nullable : Regex → Bool
  | never => false
  | empty => true
  | cls _ => false
  | seq a b => a.nullable && b.nullable
  | alt a b => a.nullable || b.nullable
  | star _ => true

/-- Derivative of an expression by one character. -/
def deriv (c : Char) : Regex → Regex
  | never => never
  | empty => never
  | cls p => if p c then empty else never
  | seq a b => if a.nullable then alt (seq (a.deriv c) b) (b.deriv c) else seq (a.deriv c) b
  | alt a b => alt (a.deriv c) (b.deriv c)
  | star a => seq (a.deriv c) (star a)

/-- Anchored match (`^ ... $`) of a whole word. -/
def matchesAll (r : Regex) : List Char → Bool
  | [] => r.nullable
  | c :: cs => matchesAll (r.deriv c) cs

/-- One or more repetitions: `a+`. -/
def plus (a : Regex) : Regex := seq a (star a)

end Regex

/-- The class `[^\s@]`. -/
def notSpaceAt (c : Char) : Bool := !isJsWhitespace c && c.toNat != 64

/-- The body of `const emailRegex = /^[^\s@]+@[^\s@]+\.[^\s@]+$/`. -/
def emailRegex : Regex :=
  .seq (.plus (.cls notSpaceAt))
    (.seq (.cls (fun c => c.toNat == 64))
      (.seq (.plus (.cls notSpaceAt))
        (.seq (.cls (fun c => c.toNat == 46)) (.plus (.cls notSpaceAt)))))

/-- The call `emailRegex.test(s)`. -/
def emailRegexTest (s : String) : Bool := emailRegex.matchesAll s.data

/-! ## Data model -/

/-- The `Peer` object of PeerJS, as far as the script reads it (`peer.id`). -/
structure Peer where
  id : String
  deriving DecidableEq, Repr

/-- The `metadata` object sent with a call: `{ type, caller }`, either of which may be missing. -/
structure Metadata where
  type : Option String
  caller : Option String
  deriving DecidableEq, Repr

/-- A PeerJS call handle (`MediaConnection`).  `closeThrows` and `answerThrows` say what the
handle does when `close()` resp. `answer()` is invoked on it. -/
structure Call where
  id : Nat
  peer : String
  metadata : Option Metadata
  closeThrows : Bool
  answerThrows : Bool
  deriving DecidableEq, Repr

/-- A media stream: the `enabled` flag of its first audio and of its first video track
(`none` when it has no such track). -/
structure MediaStream where
  id : Nat
  audio : Option Bool
  video : Option Bool
  deriving DecidableEq, Repr

/-- Callbacks the script hands to `setTimeout`. -/
inductive Callback where
  /-- The 30 s auto-reject of `call` set up by `handleIncomingCall`. -/
  | autoReject (call : Call)
  /-- The 3 s reset of the call status set up by `endCall`. -/
  | resetStatus
  deriving DecidableEq, Repr

/-- Calls into collaborators, in the order the script makes them. -/
inductive Effect where
  | newPeer (id : String)
  | peerDestroy (id : String)
  | peerCall (remote : String) (callType : String)
  | callAnswer (callId : Nat)
  | callClose (callId : Nat)
  | callHandlers (callId : Nat)
  | getUserMedia
  | stopTracks (streamId : Nat)
  | remoteVideoPlay
  | setInterval (handle : Nat)
  | clearInterval (handle : Nat)
  | focusEmailInput
  deriving DecidableEq, Repr

/-- A JavaScript exception that escapes a function. -/
inductive JSError where
  /-- Reading `peer.id` while `peer === null`. -/
  | typeError
  /-- The `close()` of call handle `callId` threw. -/
  | closeFailed (callId : Nat)
  deriving DecidableEq, Repr

/-- The two `localStorage` keys.  `peerCallRecentContacts` holds the array that
`JSON.parse` returns for the stored text (`JSON.stringify` of an array of strings
parses back to that array); `none` is an absent key. -/
structure LocalStorage where
  peerCallUserEmail : Option String
  peerCallRecentContacts : Option (List String)
  deriving DecidableEq, Repr

/-- The module variables, the DOM properties the script writes, `localStorage`, and the
record of pending timers and collaborator calls. -/
structure State where
  -- global variables
  peer : Option Peer
  currentCall : Option Call
  localStream : Option MediaStream
  remoteStream : Option MediaStream
  callStartTime : Option Int
  callTimerInterval : Option Nat
  isAudioEnabled : Bool
  isVideoEnabled : Bool
  -- DOM: `classList.contains('hidden')`
  loginScreenHidden : Bool
  callScreenHidden : Bool
  hangupBtnHidden : Bool
  callTimerHidden : Bool
  incomingCallModalHidden : Bool
  alertModalHidden : Bool
  -- DOM: values and text
  emailInputValue : String
  friendEmailValue : String
  userEmailDisplayText : String
  statusDotClass : String
  statusTextText : String
  callStatusText : String
  callStatusClass : String
  remotePeerInfoText : String
  callTimerText : String
  callerEmailText : String
  callTypeText : String
  alertTitleText : String
  alertMessageText : String
  micStatusClass : String
  camStatusClass : String
  micTextText : String
  camTextText : String
  /-- The entries `loadRecentContacts` renders; `[]` is the "No recent calls" placeholder. -/
  recentContactsShown : List String
  localVideoSrc : Option MediaStream
  remoteVideoSrc : Option MediaStream
  /-- The call captured by `acceptCallBtn.onclick` / `rejectCallBtn.onclick`. -/
  promptCall : Option Call
  -- environment
  localStorage : LocalStorage
  /-- Pending `setTimeout`s: callback and delay in milliseconds. -/
  scheduled : List (Callback × Nat)
  /-- The next handle `setInterval` returns (handles are positive). -/
  nextHandle : Nat
  effects : List Effect
  deriving DecidableEq, Repr

/-- How a function that may throw ends. -/
structure Outcome where
  state : State
  error : Option JSError
  deriving DecidableEq, Repr

/-- Normal completion. -/
def Outcome.ok (s : State) : Outcome := ⟨s, none⟩

/-- Abrupt completion: `e` escapes, the state is as it was when `e` was thrown. -/
def Outcome.threw (s : State) (e : JSError) : Outcome := ⟨s, some e⟩

/-- What `navigator.mediaDevices.getUserMedia` answers: a stream, or an error with its `name`. -/
inductive MediaResult where
  | granted (stream : MediaStream)
  | failed (name : String)
  deriving DecidableEq, Repr

/-- What `peer.call` answers: a handle, `undefined`, or an exception. -/
inductive PlaceResult where
  | handle (call : Call)
  | undefined
  | threw
  deriving DecidableEq, Repr

/-! ## Display helpers -/

/-- The function `showAlert(title, message)`. -/
def showAlert (s : State) (title message : String) : State :=
  { s with alertTitleText := title, alertMessageText := message, alertModalHidden := false }

/-- The function `updateCallStatus(message, isError = false)`. -/
def updateCallStatus (s : State) (message : String) (isError : Bool) : State :=
  { s with callStatusText := message,
           callStatusClass := if isError then "text-red-400" else "text-gray-400" }

/-- The suffix `(message ? ': ' + message : '')`. -/
def statusSuffix (message : String) : String :=
  if message = "" then "" else ": " ++ message

/-- The function `updateConnectionStatus(status, message = '')`. -/
def updateConnectionStatus (s : State) (status message : String) : State :=
  if status = "connected" then
    { s with statusDotClass := "w-3 h-3 rounded-full bg-green-500 mr-2",
             statusTextText := "Connected" ++ statusSuffix message }
  else if status = "connecting" then
    { s with statusDotClass := "w-3 h-3 rounded-full bg-yellow-500 mr-2 animate-pulse",
             statusTextText := "Connecting..." }
  else if status = "disconnected" then
    { s with statusDotClass := "w-3 h-3 rounded-full bg-red-500 mr-2",
             statusTextText := "Disconnected" ++ statusSuffix message }
  else if status = "error" then
    { s with statusDotClass := "w-3 h-3 rounded-full bg-red-500 mr-2",
             statusTextText := "Error" ++ statusSuffix message }
  else if status = "in-call" then
    { s with statusDotClass := "w-3 h-3 rounded-full bg-blue-500 mr-2",
             statusTextText := "In Call" ++ statusSuffix message }
  else s

/-- The function `showCallScreen(email)`. -/
def showCallScreen (s : State) (email : String) : State :=
  updateCallStatus
    { s with loginScreenHidden := true, callScreenHidden := false, userEmailDisplayText := email }
    "Ready to make calls" false

/-! ## Recent contacts -/

/-- The read `JSON.parse(localStorage.getItem('peerCallRecentContacts') || '[]')`. -/
def storedContacts (s : State) : List String :=
  s.localStorage.peerCallRecentContacts.getD []

/-- The function `loadRecentContacts()`. -/
def loadRecentContacts (s : State) : State :=
  { s with recentContactsShown := storedContacts s }

/-- The function `addToRecentContacts(email)`. -/
def addToRecentContacts (s : State) (email : String) : Outcome :=
  if email = "" then .ok s
  else
    match s.peer with
    | none => .threw s .typeError
    | some p =>
      if email = p.id then .ok s
      else
        let contacts := storedContacts s
        let contacts := contacts.filter (fun contact => contact ≠ email)
        let contacts := email :: contacts
        let contacts := contacts.take 5
        .ok (loadRecentContacts
          { s with localStorage :=
              { s.localStorage with peerCallRecentContacts := some contacts } })

/-- A run of `addToRecentContacts` calls, one per argument, each on the state the
previous one left (an escaping `TypeError` does not stop the next call). -/
def recordAll (s : State) : List String → State
  | [] => s
  | email :: rest => recordAll (addToRecentContacts s email).state rest

/-! ## Signalling and media -/

/-- The function `initializePeer(email)`: the `try` block creates the peer and registers its
handlers; when `new Peer` throws (`ctorThrows`) the `catch` block shows an alert and `peer`
keeps its value. -/
def initializePeer (s : State) (email : String) (ctorThrows : Bool) : State :=
  let s := { s with effects := s.effects ++ [Effect.newPeer email] }
  if ctorThrows then
    showAlert s "Initialization Error" "Failed to initialize Peer.js. Please refresh the page."
  else
    { s with peer := some ⟨email⟩ }

/-- The function `updateMediaStatus()`. -/
def updateMediaStatus (s : State) : State :=
  match s.localStream with
  | none => s
  | some stream =>
    let isAudioEnabled := stream.audio.getD false
    let isVideoEnabled := stream.video.getD false
    { s with
        isAudioEnabled := isAudioEnabled
        isVideoEnabled := isVideoEnabled
        micStatusClass :=
          "w-3 h-3 rounded-full mr-3 " ++ (if isAudioEnabled then "bg-green-500" else "bg-red-500")
        camStatusClass :=
          "w-3 h-3 rounded-full mr-3 " ++ (if isVideoEnabled then "bg-green-500" else "bg-red-500")
        micTextText := if isAudioEnabled then "On" else "Off"
        camTextText := if isVideoEnabled then "On" else "Off" }

/-- The message `initializeLocalMedia` builds in its `catch` block from `error.name`. -/
def mediaErrorMessage (name : String) : String :=
  "Could not access camera/microphone. " ++
    (if name = "NotAllowedError" then "Please allow camera and microphone permissions."
     else if name = "NotFoundError" then "No camera/microphone found."
     else if name = "NotReadableError" then "Camera/microphone is already in use."
     else "")

/-- The function `initializeLocalMedia()` up to its `await`: `getUserMedia` is asked and the
function is suspended; other events may be taken before the answer arrives. -/
def requestLocalMedia (s : State) : State :=
  { s with effects := s.effects ++ [Effect.getUserMedia] }

/-- The function `initializeLocalMedia()` from its `await` on, in the state `s` in which the
answer `r` of `getUserMedia` arrives: the assignment and display update, or the `catch`
block. -/
def localMediaSettled (s : State) (r : MediaResult) : State :=
  match r with
  | .granted stream =>
    updateMediaStatus { s with localStream := some stream, localVideoSrc := some stream }
  | .failed name => showAlert s "Media Error" (mediaErrorMessage name)

/-- The function `initializeLocalMedia()` when no other event is taken between the request
and its answer `r`. -/
def initializeLocalMedia (s : State) (r : MediaResult) : State :=
  localMediaSettled (requestLocalMedia s) r

/-- The handler `peer.on('open', (id) => ...)`. -/
def onPeerOpen (s : State) (id : String) (r : MediaResult) : State :=
  let s := updateConnectionStatus s "connected" "Connected to Peer Server"
  let s := { s with userEmailDisplayText := id }
  let s := updateCallStatus s "Ready to make calls" false
  initializeLocalMedia s r

/-- The function `handleLogin()`. -/
def handleLogin (s : State) (ctorThrows : Bool) : State :=
  let email := jsTrim s.emailInputValue
  if email = "" then
    showAlert s "Email Required" "Please enter your email address"
  else if !emailRegexTest email then
    showAlert s "Invalid Email" "Please enter a valid email address"
  else
    let s :=
      if s.localStorage.peerCallUserEmail = some email then
        showAlert s "Already Logged In" "You are already logged in with this email on this device."
      else s
    let s := { s with localStorage := { s.localStorage with peerCallUserEmail := some email } }
    let s := initializePeer s email ctorThrows
    showCallScreen s email

/-! ## Call timer -/

/-- JavaScript `str.padStart(2, '0')`. -/
def padStart2 (str : String) : String :=
  ⟨List.replicate (2 - str.data.length) '0' ++ str.data⟩

/-- The text the `setInterval` callback of `startCallTimer` writes at time `now`
(milliseconds).  `now - callStartTime` reads a `null` start time as `0`; `Math.floor` of a
quotient is `Int.fdiv`, `%` is the truncating remainder. -/
def timerText (callStartTime : Option Int) (now : Int) : String :=
  let diff := Int.fdiv (now - callStartTime.getD 0) 1000
  let minutes := padStart2 (toString (Int.fdiv diff 60))
  let seconds := padStart2 (toString (Int.tmod diff 60))
  minutes ++ ":" ++ seconds

/-- One firing of the `setInterval` callback of `startCallTimer`. -/
def callTimerTick (s : State) (now : Int) : State :=
  { s with callTimerText := timerText s.callStartTime now }

/-- The function `startCallTimer()`, at time `now`. -/
def startCallTimer (s : State) (now : Int) : State :=
  { s with
      callStartTime := some now
      callTimerHidden := false
      callTimerInterval := some s.nextHandle
      nextHandle := s.nextHandle + 1
      effects := s.effects ++ [Effect.setInterval s.nextHandle] }

/-- The function `stopCallTimer()`. -/
def stopCallTimer (s : State) : State :=
  let s :=
    match s.callTimerInterval with
    | some h => { s with effects := s.effects ++ [Effect.clearInterval h], callTimerInterval := none }
    | none => s
  { s with callStartTime := none }

/-! ## The call session -/

/-- The function `endCall()`. -/
def endCall (s : State) : Outcome :=
  let s := stopCallTimer s
  let closed : Outcome :=
    match s.currentCall with
    | some call =>
      let s := { s with effects := s.effects ++ [Effect.callClose call.id] }
      if call.closeThrows then .threw s (.closeFailed call.id)
      else .ok { s with currentCall := none }
    | none => .ok s
  match closed.error with
  | some e => .threw closed.state e
  | none =>
    let s := closed.state
    let s :=
      match s.remoteVideoSrc with
      | some stream =>
        { s with effects := s.effects ++ [Effect.stopTracks stream.id], remoteVideoSrc := none }
      | none => s
    let s := { s with remoteStream := none }
    let s := { s with remotePeerInfoText := "Not connected" }
    let s := updateCallStatus s "Call ended" false
    let s := updateConnectionStatus s "connected" "Ready for calls"
    let s := { s with hangupBtnHidden := true, callTimerHidden := true }
    .ok { s with scheduled := s.scheduled ++ [(Callback.resetStatus, 3000)] }

/-- The function `handleRemoteStream(stream)`. -/
def handleRemoteStream (s : State) (stream : MediaStream) : State :=
  { s with remoteStream := some stream, remoteVideoSrc := some stream,
           effects := s.effects ++ [Effect.remoteVideoPlay] }

/-- The function `setupCallEventHandlers(call)`: registers the three handlers below on `call`. -/
def setupCallEventHandlers (s : State) (call : Call) : State :=
  { s with effects := s.effects ++ [Effect.callHandlers call.id] }

/-- The handler `call.on('stream', ...)` of `setupCallEventHandlers`, at time `now`. -/
def onCallStream (s : State) (call : Call) (stream : MediaStream) (now : Int) : State :=
  let s := handleRemoteStream s stream
  let s := { s with remotePeerInfoText := call.peer }
  let s := updateCallStatus s "Call connected" false
  let s := updateConnectionStatus s "in-call" ("Connected to " ++ call.peer)
  startCallTimer s now

/-- The handler `call.on('close', ...)` of `setupCallEventHandlers`. -/
def onCallClose (s : State) : Outcome := endCall s

/-- The handler `call.on('error', ...)` of `setupCallEventHandlers`. -/
def onCallError (s : State) : Outcome :=
  endCall (updateCallStatus s "Call error occurred" true)

/-- The `catch` block of `initiateCall`. -/
def initiateCallFailed (s : State) (friendEmailValue : String) : State :=
  showAlert (updateCallStatus s "Failed to initiate call" true) "Call Failed"
    ("Could not call " ++ friendEmailValue ++
      ". They might be offline or have a different Peer ID.")

/-- The function `initiateCall(callType)`.  `media` is what `getUserMedia` answers if it is
asked, `placed` what `peer.call` answers if it is asked; the function is resumed after its
`await` with no other event taken in between. -/
def initiateCall (s : State) (callType : String) (media : MediaResult) (placed : PlaceResult) :
    Outcome :=
  let friendEmailValue := jsTrim s.friendEmailValue
  if friendEmailValue = "" then
    .ok (showAlert s "Email Required" "Please enter your friend's email address")
  else if !emailRegexTest friendEmailValue then
    .ok (showAlert s "Invalid Email" "Please enter a valid email address")
  else
    match s.peer with
    | none => .threw s .typeError
    | some p =>
      if friendEmailValue = p.id then
        .ok (showAlert s "Cannot Call Yourself"
          "You cannot call yourself. Enter a different email.")
      else
        let s := if s.localStream.isNone then initializeLocalMedia s media else s
        if s.localStream.isNone then
          .ok (showAlert s "Media Required" "Camera/microphone access is required to make calls")
        else
          let s := updateCallStatus s ("Calling " ++ friendEmailValue ++ "...") false
          let s := updateConnectionStatus s "connecting" ("Calling " ++ friendEmailValue)
          let s := { s with effects := s.effects ++ [Effect.peerCall friendEmailValue callType] }
          match placed with
          | .threw => .ok (initiateCallFailed s friendEmailValue)
          | .undefined => .ok (initiateCallFailed { s with currentCall := none } friendEmailValue)
          | .handle call =>
            let s := { s with currentCall := some call }
            let s := setupCallEventHandlers s call
            let s := { s with hangupBtnHidden := false }
            let added := addToRecentContacts s friendEmailValue
            match added.error with
            | none => .ok added.state
            | some _ => .ok (initiateCallFailed added.state friendEmailValue)

/-- The expression `call.metadata?.caller || call.peer`. -/
def callerLabel (call : Call) : String :=
  match call.metadata.bind (·.caller) with
  | some caller => if caller = "" then call.peer else caller
  | none => call.peer

/-- The expression `call.metadata?.type === 'video' ? 'Video Call' : 'Voice Call'`. -/
def callTypeLabel (call : Call) : String :=
  if call.metadata.bind (·.type) = some "video" then "Video Call" else "Voice Call"

/-- The function `handleIncomingCall(call)`, which `peer.on('call', ...)` runs for every
inbound offer. -/
def handleIncomingCall (s : State) (call : Call) : State :=
  { s with
      callerEmailText := callerLabel call
      callTypeText := callTypeLabel call
      incomingCallModalHidden := false
      currentCall := some call
      promptCall := some call
      scheduled := s.scheduled ++ [(Callback.autoReject call, 30000)] }

/-- The function `rejectIncomingCall(call)`; `none` is a falsy argument. -/
def rejectIncomingCall (s : State) (call : Option Call) : Outcome :=
  let s := { s with incomingCallModalHidden := true }
  let closed : Outcome :=
    match call with
    | some call =>
      let s := { s with effects := s.effects ++ [Effect.callClose call.id] }
      if call.closeThrows then .threw s (.closeFailed call.id) else .ok s
    | none => .ok s
  match closed.error with
  | some e => .threw closed.state e
  | none =>
    let s := updateCallStatus closed.state "Call rejected" false
    .ok { s with currentCall := none }

/-- The `catch` block of `acceptIncomingCall`. -/
def acceptFailed (s : State) : State :=
  showAlert (updateCallStatus s "Failed to answer call" true) "Call Failed"
    "Could not answer the call"

/-- What `acceptIncomingCall` receives as `call`: a call handle (from the `onclick` handler
that `handleIncomingCall` installs), or the click event (from the listener that `initApp`
registers with `addEventListener('click', acceptIncomingCall)`), which has no `peer` and no
`answer` method. -/
inductive CallArg where
  | handle (call : Call)
  | event
  deriving DecidableEq, Repr

/-- The function `acceptIncomingCall(call)` from its second `if (!localStream)` on. -/
def acceptIncomingCallRest (s : State) (arg : CallArg) : State :=
  if s.localStream.isNone then
    let s := showAlert s "Media Required" "Camera/microphone access is required to accept calls"
    { s with incomingCallModalHidden := true }
  else
    let s := { s with incomingCallModalHidden := true }
    match arg with
    | .event =>
      -- the text is built from an undefined `call.peer`; `call.answer` is not a function, and
      -- the TypeError is caught
      acceptFailed (updateCallStatus s "Connecting to undefined..." false)
    | .handle call =>
      let s := updateCallStatus s ("Connecting to " ++ call.peer ++ "...") false
      let s := { s with effects := s.effects ++ [Effect.callAnswer call.id] }
      if call.answerThrows then acceptFailed s
      else
        let s := setupCallEventHandlers s call
        let s := { s with hangupBtnHidden := false }
        let added := addToRecentContacts s call.peer
        match added.error with
        | none => added.state
        | some _ => acceptFailed added.state

/-- The synchronous part of one `acceptIncomingCall(call)`: with no local stream it asks for
the media and is suspended at `await initializeLocalMedia()` (nothing else is touched, the
prompt stays as it is); with a local stream it runs to its end. -/
def acceptIncomingCallBegin (s : State) (arg : CallArg) : State :=
  if s.localStream.isNone then requestLocalMedia s else acceptIncomingCallRest s arg

/-- A suspended `acceptIncomingCall(call)` resumes in state `s`, in which the answer `r` of
its `getUserMedia` request arrives: the rest of `initializeLocalMedia`, then the rest of
`acceptIncomingCall`.  The state `s` is the one left by whatever events were taken during
the wait. -/
def acceptIncomingCallResume (s : State) (arg : CallArg) (r : MediaResult) : State :=
  acceptIncomingCallRest (localMediaSettled s r) arg

/-- A click on the accept button: the listener registered by `initApp` runs with the click
event, then the `onclick` handler installed by `handleIncomingCall` (if any) runs with its
call; each runs its synchronous part. -/
def clickAccept (s : State) : State :=
  let s := acceptIncomingCallBegin s .event
  match s.promptCall with
  | some call => acceptIncomingCallBegin s (.handle call)
  | none => s

/-- The function `acceptIncomingCall(call)` on a call handle, run as one step: `media` is
what `getUserMedia` answers if it is asked, and no other event is taken during the `await`.
This is exact when a local stream is held (no `await` is reached); without one it is the run
in which nothing intervenes, and `acceptIncomingCallBegin` / `acceptIncomingCallResume` give
the two halves for the other runs. -/
def acceptIncomingCall (s : State) (call : Call) (media : MediaResult) : State :=
  if s.localStream.isNone then
    acceptIncomingCallResume (acceptIncomingCallBegin s (.handle call)) (.handle call) media
  else acceptIncomingCallBegin s (.handle call)

/-- The callback of the `setTimeout(..., 30000)` in `handleIncomingCall(call)`. -/
def autoRejectTimeout (s : State) (call : Call) : Outcome :=
  if s.incomingCallModalHidden = false then
    let rejected := rejectIncomingCall s (some call)
    match rejected.error with
    | some e => .threw rejected.state e
    | none => .ok (showAlert rejected.state "Call Missed" ("Missed call from " ++ call.peer))
  else .ok s

/-- The callback of the `setTimeout(..., 3000)` in `endCall()`. -/
def resetStatusTimeout (s : State) : State :=
  if s.currentCall.isNone then updateCallStatus s "Ready to make calls" false else s

/-- A pending `setTimeout` fires: it leaves `scheduled` and its callback runs. -/
def fireTimeout (s : State) (cb : Callback) (delay : Nat) : Outcome :=
  let s := { s with scheduled := s.scheduled.erase (cb, delay) }
  match cb with
  | .autoReject call => autoRejectTimeout s call
  | .resetStatus => .ok (resetStatusTimeout s)

/-- The function `handleLogout()`. -/
def handleLogout (s : State) : Outcome :=
  let ended : Outcome := if s.currentCall.isSome then endCall s else .ok s
  match ended.error with
  | some e => .threw ended.state e
  | none =>
    let s := ended.state
    let s :=
      match s.peer with
      | some p => { s with effects := s.effects ++ [Effect.peerDestroy p.id], peer := none }
      | none => s
    let s :=
      match s.localStream with
      | some stream =>
        { s with effects := s.effects ++ [Effect.stopTracks stream.id], localStream := none }
      | none => s
    let s := { s with localStorage := { s.localStorage with peerCallUserEmail := none } }
    .ok { s with
            callScreenHidden := true
            loginScreenHidden := false
            emailInputValue := ""
            effects := s.effects ++ [Effect.focusEmailInput] }

/-! ## Concrete states and calls used as test inputs -/

/-- The state once the script has loaded and nobody is logged in: the variables as the top of
the script initialises them, `localStorage` empty, no timer pending, the login screen shown
and every other togglable element hidden, all texts empty. -/
def loggedOut : State where
  peer := none
  currentCall := none
  localStream := none
  remoteStream := none
  callStartTime := none
  callTimerInterval := none
  isAudioEnabled := true
  isVideoEnabled := true
  loginScreenHidden := false
  callScreenHidden := true
  hangupBtnHidden := true
  callTimerHidden := true
  incomingCallModalHidden := true
  alertModalHidden := true
  emailInputValue := ""
  friendEmailValue := ""
  userEmailDisplayText := ""
  statusDotClass := ""
  statusTextText := ""
  callStatusText := ""
  callStatusClass := ""
  remotePeerInfoText := ""
  callTimerText := ""
  callerEmailText := ""
  callTypeText := ""
  alertTitleText := ""
  alertMessageText := ""
  micStatusClass := ""
  camStatusClass := ""
  micTextText := ""
  camTextText := ""
  recentContactsShown := []
  localVideoSrc := none
  remoteVideoSrc := none
  promptCall := none
  localStorage := ⟨none, none⟩
  scheduled := []
  nextHandle := 1
  effects := []

/-- A camera-and-microphone stream with both tracks enabled. -/
def camera : MediaStream := ⟨1, some true, some true⟩

/-- The user `me@example.com` has typed the address and logged in; the peer is created. -/
def loggedIn : State :=
  handleLogin { loggedOut with emailInputValue := "me@example.com" } false

/-- The state `loggedIn` after the peer server has answered (`open`) and the media devices
have been granted: connected, idle, ready to make calls. -/
def ready : State := onPeerOpen loggedIn "me@example.com" (.granted camera)

/-- The state `loggedIn` after the peer server has answered (`open`) and the media devices
have been refused: connected, idle, no local stream. -/
def readyNoMedia : State := onPeerOpen loggedIn "me@example.com" (.failed "NotAllowedError")

/-- An inbound video offer from `bob@example.com`. -/
def bobCall : Call := ⟨1, "bob@example.com", some ⟨some "video", some "bob@example.com"⟩, false, false⟩

/-- An inbound voice offer from `carol@example.com`. -/
def carolCall : Call :=
  ⟨2, "carol@example.com", some ⟨some "audio", some "carol@example.com"⟩, false, false⟩

/-- A call handle whose `close()` throws. -/
def stuckCall : Call := ⟨3, "dave@example.com", none, true, false⟩

/-- Bob's offer is ringing in `ready`. -/
def bobRinging : State := handleIncomingCall ready bobCall

/-- Bob's offer rang, the user accepted it, and then Carol's offer arrived. -/
def bobAcceptedCarolRinging : State :=
  handleIncomingCall (acceptIncomingCall bobRinging bobCall (.granted camera)) carolCall

/-- Bob's offer rang, the user rejected it, and then Carol's offer arrived. -/
def bobRejectedCarolRinging : State :=
  handleIncomingCall (rejectIncomingCall bobRinging (some bobCall)).state carolCall

/-- An active call on `stuckCall`: offered, accepted, remote stream received at time 1000. -/
def stuckActive : State :=
  onCallStream (acceptIncomingCall (handleIncomingCall ready stuckCall) stuckCall (.granted camera))
    stuckCall ⟨2, some true, some true⟩ 1000

/-- The state `bobRejectedCarolRinging` after Bob's 30 s expiry has fired: Carol's offer has had
no user action and her own expiry is still to fire. -/
def bobExpiredCarolWaiting : State :=
  (fireTimeout bobRejectedCarolRinging (.autoReject bobCall) 30000).state

/-- The session is idle: no current call, no call timer, no remote stream. -/
def Idle (s : State) : Prop :=
  s.currentCall = none ∧ s.callTimerInterval = none ∧ s.callStartTime = none ∧
    s.remoteStream = none ∧ s.remoteVideoSrc = none

instance (s : State) : Decidable (Idle s) := by unfold Idle; infer_instance

/-- The pre-login state: no persisted identity, no peer, no local stream, no current call,
the login screen shown and the call screen hidden. -/
def LoggedOut (s : State) : Prop :=
  s.localStorage.peerCallUserEmail = none ∧ s.peer = none ∧ s.localStream = none ∧
    s.currentCall = none ∧ s.loginScreenHidden = false ∧ s.callScreenHidden = true

instance (s : State) : Decidable (LoggedOut s) := by unfold LoggedOut; infer_instance

/-! ## Timer display: reference text, decoding, and a two-call scenario -/

/-- The two-digit zero-padded decimal numeral of `n` (for `n < 100`): tens digit, units digit. -/
def twoDigits (n : Nat) : String := ⟨[Nat.digitChar (n / 10), Nat.digitChar (n % 10)]⟩

/-- The value of a decimal digit character. -/
def digitValue (c : Char) : Option Nat :=
  if 48 ≤ c.toNat ∧ c.toNat ≤ 57 then some (c.toNat - 48) else none

/-- Reads a timer text of the shape `mm:ss` back as a number of seconds. -/
def decodeTimerText (text : String) : Option Nat :=
  match text.data with
  | [m1, m0, sep, s1, s0] =>
    if sep.toNat = 58 then
      match digitValue m1, digitValue m0, digitValue s1, digitValue s0 with
      | some a, some b, some c, some e => some ((a * 10 + b) * 60 + (c * 10 + e))
      | _, _, _, _ => none
    else none
  | _ => none

/-- The handle `peer.call` returns for an outgoing call to `alice@example.com`. -/
def aliceCall : Call := ⟨4, "alice@example.com", none, false, false⟩

/-- A first call: from `ready` the user calls `alice@example.com` (audio) and the remote
stream arrives at time 1000. -/
def firstCallActive : State :=
  onCallStream
    (initiateCall { ready with friendEmailValue := "alice@example.com" } "audio"
      (.granted camera) (.handle aliceCall)).state
    aliceCall ⟨2, some true, none⟩ 1000

/-- The first call has ticked for the last time at 84500 (83 s elapsed) and the user has hung
up. -/
def firstCallEnded : State := (endCall (callTimerTick firstCallActive 84500)).state

/-- A second call after `firstCallEnded`: the user calls `alice@example.com` again and the
remote stream arrives at time 200000; no tick has fired yet. -/
def secondCallActive : State :=
  onCallStream
    (initiateCall firstCallEnded "audio" (.granted camera) (.handle { aliceCall with id := 5 })).state
    { aliceCall with id := 5 } ⟨3, some true, none⟩ 200000

/-! ## Recent contacts: bound, distinctness, move-to-front -/

/-- The stored contact list has at most 5 entries, all distinct. -/
def ContactsOk (s : State) : Prop :=
  (storedContacts s).length ≤ 5 ∧ (storedContacts s).Nodup

/-- Reading the contacts back after `addToRecentContacts` has stored `l` gives `l`. -/
theorem storedContacts_recorded (s : State) (l : List String) :
    storedContacts (loadRecentContacts
      { s with localStorage := { s.localStorage with peerCallRecentContacts := some l } }) = l :=
  rfl

/-- Putting `e` in front of a duplicate-free list with `e` filtered out keeps it duplicate-free. -/
theorem nodup_front_filter (e : String) (l : List String) (h : l.Nodup) :
    (e :: l.filter (fun contact => contact ≠ e)).Nodup := by
  refine List.nodup_cons.2 ⟨?_, h.filter _⟩
  simp [List.mem_filter]

/-- One `addToRecentContacts` call preserves `ContactsOk`, on every path through it. -/
theorem addToRecentContacts_contactsOk (s : State) (email : String) (h : ContactsOk s) :
    ContactsOk (addToRecentContacts s email).state := by
  unfold addToRecentContacts
  split
  · exact h
  · split
    · exact h
    · split
      · exact h
      · refine ⟨?_, ?_⟩
        · rw [Outcome.ok, storedContacts_recorded]
          exact (List.length_take_le _ _)
        · rw [Outcome.ok, storedContacts_recorded]
          exact (nodup_front_filter email _ h.2).sublist (List.take_sublist _ _)

/-- Any run of `addToRecentContacts` calls preserves `ContactsOk`. -/
theorem recordAll_contactsOk (emails : List String) :
    ∀ s : State, ContactsOk s → ContactsOk (recordAll s emails) := by
  induction emails with
  | nil => intro s h; exact h
  | cons e rest ih =>
    intro s h
    exact ih _ (addToRecentContacts_contactsOk s e h)

/-- C1: starting from an empty stored contact list, after each call of any sequence of
`addToRecentContacts` calls (after the first `k` of them, for every `k`) the stored list has
at most 5 entries and holds no identifier twice. -/
theorem recordAll_bounded_distinct (s : State) (emails : List String) (k : Nat)
    (hempty : storedContacts s = []) :
    (storedContacts (recordAll s (emails.take k))).length ≤ 5 ∧
      (storedContacts (recordAll s (emails.take k))).Nodup :=
  recordAll_contactsOk (emails.take k) s (by simp [ContactsOk, hempty])

/-- C1, at a concrete run: seven calls, one identifier repeated, one empty, one the user's
own. -/
theorem recordAll_bounded_distinct_witness :
    storedContacts loggedIn = [] ∧
      (storedContacts (recordAll loggedIn
        (["a@x.io", "b@x.io", "a@x.io", "", "me@example.com", "c@x.io", "d@x.io", "e@x.io",
          "f@x.io"].take 9))).length ≤ 5 ∧
      (storedContacts (recordAll loggedIn
        (["a@x.io", "b@x.io", "a@x.io", "", "me@example.com", "c@x.io", "d@x.io", "e@x.io",
          "f@x.io"].take 9))).Nodup :=
  ⟨by decide, recordAll_bounded_distinct loggedIn _ 9 (by decide)⟩

/-- C2: for a logged-in user (peer `p`), every stored list and every non-empty identifier `e`
other than `p.id`, `addToRecentContacts(e)` completes normally and stores exactly the first 5
entries of `e` followed by the old list without `e`; so `e` is at the front, occurs once, what
follows it is a subsequence of the old list (relative order kept), and the rendered list is
the stored one. -/
theorem addToRecentContacts_moves_to_front (s : State) (p : Peer) (e : String)
    (hp : s.peer = some p) (he : e ≠ "") (hne : e ≠ p.id) :
    (addToRecentContacts s e).error = none ∧
      storedContacts (addToRecentContacts s e).state
        = ((e :: (storedContacts s).filter (fun contact => contact ≠ e)).take 5) ∧
      (storedContacts (addToRecentContacts s e).state).head? = some e ∧
      (storedContacts (addToRecentContacts s e).state).count e = 1 ∧
      (storedContacts (addToRecentContacts s e).state).tail.Sublist (storedContacts s) ∧
      (addToRecentContacts s e).state.recentContactsShown
        = storedContacts (addToRecentContacts s e).state := by
  have hrun : ∀ l, l = (e :: (storedContacts s).filter (fun contact => contact ≠ e)).take 5 →
      addToRecentContacts s e = .ok (loadRecentContacts
        { s with localStorage := { s.localStorage with peerCallRecentContacts := some l } }) := by
    intro l hl
    simp [addToRecentContacts, hp, he, hne, hl]
  have hrun := hrun _ rfl
  have hstored : storedContacts (addToRecentContacts s e).state
      = ((e :: (storedContacts s).filter (fun contact => contact ≠ e)).take 5) := by
    rw [hrun, Outcome.ok, storedContacts_recorded]
  refine ⟨by rw [hrun]; rfl, hstored, ?_, ?_, ?_, ?_⟩
  · rw [hstored]; simp
  · rw [hstored]
    have : ((e :: (storedContacts s).filter (fun contact => contact ≠ e)).take 5)
        = e :: ((storedContacts s).filter (fun contact => contact ≠ e)).take 4 := by simp
    rw [this]
    have hnot : e ∉ ((storedContacts s).filter (fun contact => contact ≠ e)).take 4 := by
      intro hmem
      have := List.mem_of_mem_take hmem
      simp [List.mem_filter] at this
    rw [List.count_cons_self, List.count_eq_zero_of_not_mem hnot]
  · rw [hstored]
    have : ((e :: (storedContacts s).filter (fun contact => contact ≠ e)).take 5)
        = e :: ((storedContacts s).filter (fun contact => contact ≠ e)).take 4 := by simp
    rw [this, List.tail_cons]
    exact (List.take_sublist _ _).trans (List.filter_sublist _)
  · rw [hrun]; rfl

/-- C2, at a concrete list: `b@x.io` is stored third of six and is recorded again. -/
theorem addToRecentContacts_moves_to_front_witness :
    storedContacts (addToRecentContacts
        { loggedIn with localStorage := ⟨some "me@example.com",
            some ["a@x.io", "c@x.io", "b@x.io", "d@x.io", "e@x.io", "f@x.io"]⟩ } "b@x.io").state
      = ["b@x.io", "a@x.io", "c@x.io", "d@x.io", "e@x.io"] :=
  (addToRecentContacts_moves_to_front
    { loggedIn with localStorage := ⟨some "me@example.com",
        some ["a@x.io", "c@x.io", "b@x.io", "d@x.io", "e@x.io", "f@x.io"]⟩ }
    ⟨"me@example.com"⟩ "b@x.io" (by decide) (by decide) (by decide)).2.1.trans (by decide)

/-! ## Inbound offers and their expiry -/

/-- C3 as stated fails: with Bob's offer ringing, Carol's offer is not rejected (no `close()`
is invoked) and the current call becomes Carol's, no longer Bob's. -/
theorem second_offer_not_rejected :
    bobRinging.currentCall = some bobCall ∧ bobRinging.incomingCallModalHidden = false ∧
      (handleIncomingCall bobRinging carolCall).currentCall = some carolCall ∧
      (handleIncomingCall bobRinging carolCall).currentCall ≠ some bobCall ∧
      Effect.callClose carolCall.id ∉ (handleIncomingCall bobRinging carolCall).effects := by
  decide

/-- C3, amended: when a second offer `carol` arrives while `bob` is still ringing, nothing is
closed or otherwise asked of a collaborator; `carol` becomes the one current call and the call
the prompt shows and acts on, the prompt stays open, and both 30 s expiries are pending. -/
theorem second_offer_replaces_first (s : State) (bob carol : Call) :
    (handleIncomingCall (handleIncomingCall s bob) carol).currentCall = some carol ∧
      (handleIncomingCall (handleIncomingCall s bob) carol).effects = s.effects ∧
      (handleIncomingCall (handleIncomingCall s bob) carol).promptCall = some carol ∧
      (handleIncomingCall (handleIncomingCall s bob) carol).callerEmailText = callerLabel carol ∧
      (handleIncomingCall (handleIncomingCall s bob) carol).incomingCallModalHidden = false ∧
      (handleIncomingCall (handleIncomingCall s bob) carol).scheduled
        = s.scheduled ++ [(Callback.autoReject bob, 30000), (Callback.autoReject carol, 30000)] := by
  refine ⟨rfl, rfl, rfl, rfl, rfl, ?_⟩
  simp [handleIncomingCall]

/-- When the expiry of `call` is the very next event after its offer and `close()` returns
normally, the expiry invokes `close()` on the handle and nothing else, shows the alert "Call
Missed" / "Missed call from " followed by the caller's peer id, hides the incoming-call prompt
and leaves `currentCall` null, without an error. -/
theorem expiry_next_event_rejects (s : State) (call : Call)
    (hclose : call.closeThrows = false) :
    (fireTimeout (handleIncomingCall s call) (.autoReject call) 30000).error = none ∧
      (fireTimeout (handleIncomingCall s call) (.autoReject call) 30000).state.effects
        = s.effects ++ [Effect.callClose call.id] ∧
      (fireTimeout (handleIncomingCall s call) (.autoReject call) 30000).state.alertModalHidden
        = false ∧
      (fireTimeout (handleIncomingCall s call) (.autoReject call) 30000).state.alertTitleText
        = "Call Missed" ∧
      (fireTimeout (handleIncomingCall s call) (.autoReject call) 30000).state.alertMessageText
        = "Missed call from " ++ call.peer ∧
      (fireTimeout (handleIncomingCall s call) (.autoReject call)
        30000).state.incomingCallModalHidden = true ∧
      (fireTimeout (handleIncomingCall s call) (.autoReject call) 30000).state.currentCall
        = none := by
  simp [fireTimeout, autoRejectTimeout, rejectIncomingCall, handleIncomingCall, hclose,
    Outcome.ok, Outcome.threw, showAlert, updateCallStatus]

/-- C4 fails on the code: Bob's offer was rejected by the user, so the session is idle when
Carol's offer arrives, and Carol's offer gets no user action.  Both 30 s expiries are pending.
Bob's fires first: it finds Carol's prompt shown, hides it, invokes `close()` on Bob's handle
and reports a missed call from Bob.  When Carol's own expiry fires the prompt is hidden, so it
does nothing: `close()` is never invoked on Carol's handle and no notification names
Carol. -/
theorem unanswered_offer_expiry_does_nothing :
    (rejectIncomingCall bobRinging (some bobCall)).state.currentCall = none ∧
      (rejectIncomingCall bobRinging (some bobCall)).state.incomingCallModalHidden = true ∧
      bobRejectedCarolRinging.currentCall = some carolCall ∧
      bobRejectedCarolRinging.incomingCallModalHidden = false ∧
      bobRejectedCarolRinging.scheduled
        = [(Callback.autoReject bobCall, 30000), (Callback.autoReject carolCall, 30000)] ∧
      bobExpiredCarolWaiting.scheduled = [(Callback.autoReject carolCall, 30000)] ∧
      bobExpiredCarolWaiting.incomingCallModalHidden = true ∧
      bobExpiredCarolWaiting.alertMessageText = "Missed call from bob@example.com" ∧
      (fireTimeout bobExpiredCarolWaiting (.autoReject carolCall) 30000).error = none ∧
      (fireTimeout bobExpiredCarolWaiting (.autoReject carolCall) 30000).state
        = { bobExpiredCarolWaiting with scheduled := [] } ∧
      Effect.callClose carolCall.id ∉
        (fireTimeout bobExpiredCarolWaiting (.autoReject carolCall) 30000).state.effects ∧
      (fireTimeout bobExpiredCarolWaiting (.autoReject carolCall) 30000).state.alertMessageText
        ≠ "Missed call from carol@example.com" := by
  decide

/-- The expiry callback does nothing when the incoming-call prompt is hidden. -/
theorem autoRejectTimeout_hidden (s : State) (call : Call)
    (h : s.incomingCallModalHidden = true) : autoRejectTimeout s call = .ok s := by
  simp [autoRejectTimeout, h]

/-- C5 fails on the code: Bob's offer was accepted (resp. rejected) by the user, then Carol's
offer was presented; when Bob's expiry fires it is not a no-op.  It invokes `close()` on
Bob's handle, sets `currentCall` (Carol's call) to null, hides Carol's prompt and shows
"Missed call from bob@example.com". -/
theorem stale_expiry_rejects_later_offer :
    (bobAcceptedCarolRinging.currentCall = some carolCall ∧
      (fireTimeout bobAcceptedCarolRinging (.autoReject bobCall) 30000).state.currentCall = none ∧
      (fireTimeout bobAcceptedCarolRinging (.autoReject bobCall) 30000).state.effects
        = bobAcceptedCarolRinging.effects ++ [Effect.callClose bobCall.id] ∧
      Effect.callAnswer bobCall.id ∈ bobAcceptedCarolRinging.effects ∧
      (fireTimeout bobAcceptedCarolRinging (.autoReject bobCall)
        30000).state.incomingCallModalHidden = true ∧
      (fireTimeout bobAcceptedCarolRinging (.autoReject bobCall) 30000).state.alertModalHidden
        = false ∧
      (fireTimeout bobAcceptedCarolRinging (.autoReject bobCall) 30000).state.alertTitleText
        = "Call Missed" ∧
      (fireTimeout bobAcceptedCarolRinging (.autoReject bobCall) 30000).state.alertMessageText
        = "Missed call from bob@example.com") ∧
    (bobRejectedCarolRinging.currentCall = some carolCall ∧
      (fireTimeout bobRejectedCarolRinging (.autoReject bobCall) 30000).state.currentCall = none ∧
      (fireTimeout bobRejectedCarolRinging (.autoReject bobCall) 30000).state.effects
        = bobRejectedCarolRinging.effects ++ [Effect.callClose bobCall.id] ∧
      (fireTimeout bobRejectedCarolRinging (.autoReject bobCall) 30000).state.alertMessageText
        = "Missed call from bob@example.com") := by
  decide

/-! ## Hanging up -/

/-- C6 as stated fails: `ready` is idle, and `endCall` there rewrites the call status from
"Ready to make calls" to "Call ended" and the connection status from "Connected: Connected to
Peer Server" to "Connected: Ready for calls". -/
theorem endCall_idle_changes_status :
    ready.currentCall = none ∧ ready.callTimerInterval = none ∧ ready.remoteStream = none ∧
      ready.callStatusText = "Ready to make calls" ∧
      (endCall ready).state.callStatusText = "Call ended" ∧
      ready.statusTextText = "Connected: Connected to Peer Server" ∧
      (endCall ready).state.statusTextText = "Connected: Ready for calls" ∧
      (endCall ready).state ≠ ready := by
  decide

/-- C6, amended: `endCall` in an idle state raises no error, asks nothing of a collaborator
and leaves every session variable as it was; it does rewrite the display (remote party "Not
connected", call status "Call ended", connection status "Connected: Ready for calls", hang-up
button and timer hidden) and schedules the 3 s reset of the call status. -/
theorem endCall_idle (s : State) (hidle : Idle s) :
    (endCall s).error = none ∧
      (endCall s).state =
        { s with
            remotePeerInfoText := "Not connected"
            callStatusText := "Call ended"
            callStatusClass := "text-gray-400"
            statusDotClass := "w-3 h-3 rounded-full bg-green-500 mr-2"
            statusTextText := "Connected: Ready for calls"
            hangupBtnHidden := true
            callTimerHidden := true
            scheduled := s.scheduled ++ [(Callback.resetStatus, 3000)] } := by
  obtain ⟨h1, h2, h3, h4, h5⟩ := hidle
  cases s
  simp only at h1 h2 h3 h4 h5
  subst h1 h2 h3 h4 h5
  refine ⟨rfl, ?_⟩
  simp [endCall, stopCallTimer, Outcome.ok, updateCallStatus, updateConnectionStatus,
    statusSuffix]

/-- C6, amended, at the idle state `ready`. -/
theorem endCall_idle_witness :
    Idle ready ∧ (endCall ready).error = none ∧
      (endCall ready).state.currentCall = ready.currentCall ∧
      (endCall ready).state.effects = ready.effects :=
  ⟨by decide, (endCall_idle ready (by decide)).1,
    by rw [(endCall_idle ready (by decide)).2], by rw [(endCall_idle ready (by decide)).2]⟩

/-- C9 as stated fails: `endCall` on the active call `stuckCall`, whose `close()` throws, lets
the error escape and leaves `currentCall` and `remoteStream` set; only the timer is stopped. -/
theorem endCall_close_failure_escapes :
    stuckActive.currentCall = some stuckCall ∧
      (endCall stuckActive).error = some (.closeFailed 3) ∧
      (endCall stuckActive).state.currentCall = some stuckCall ∧
      (endCall stuckActive).state.remoteStream ≠ none ∧
      (endCall stuckActive).state.callTimerInterval = none := by
  decide

/-- C9, amended: when `endCall` runs with a current call whose `close()` throws, the call
timer has already been stopped (`callTimerInterval` and `callStartTime` are null, the interval
cleared), `close()` has been invoked, and then the error escapes `endCall`: `currentCall`,
`remoteStream`, the remote video and the displayed status are exactly as before. -/
theorem endCall_close_throws (s : State) (call : Call) (hcall : s.currentCall = some call)
    (hthrows : call.closeThrows = true) :
    (endCall s).error = some (.closeFailed call.id) ∧
      (endCall s).state.callTimerInterval = none ∧
      (endCall s).state.callStartTime = none ∧
      (endCall s).state
        = { stopCallTimer s with
              effects := (stopCallTimer s).effects ++ [Effect.callClose call.id] } ∧
      (endCall s).state.currentCall = some call ∧
      (endCall s).state.remoteStream = s.remoteStream ∧
      (endCall s).state.remoteVideoSrc = s.remoteVideoSrc ∧
      (endCall s).state.callStatusText = s.callStatusText ∧
      (endCall s).state.statusTextText = s.statusTextText := by
  have hstop : (stopCallTimer s).currentCall = some call := by
    unfold stopCallTimer; split <;> simpa using hcall
  have hrun : endCall s = .threw { stopCallTimer s with
      effects := (stopCallTimer s).effects ++ [Effect.callClose call.id] }
      (.closeFailed call.id) := by
    simp [endCall, hstop, hthrows, Outcome.threw]
  rw [hrun]
  unfold stopCallTimer
  split <;> simp_all [Outcome.threw]

/-- C9, amended, at the active call `stuckCall`. -/
theorem endCall_close_throws_witness :
    stuckActive.currentCall = some stuckCall ∧ stuckCall.closeThrows = true ∧
      (endCall stuckActive).error = some (.closeFailed 3) ∧
      (endCall stuckActive).state.callTimerInterval = none :=
  ⟨by decide, rfl, (endCall_close_throws stuckActive stuckCall (by decide) rfl).1,
    (endCall_close_throws stuckActive stuckCall (by decide) rfl).2.1⟩

/-! ## Media acquisition failures -/

/-- C7: a logged-in user (peer `p`) holds no local media and asks to call a valid identifier
(non-empty after trimming, e-mail shaped, not `p.id`); media acquisition fails.  Then
`initiateCall` completes normally having asked only for the media (`peer.call` is never
invoked), `currentCall` and the stored and shown contacts are as before, no local stream is
held, and the alert "Media Required" is shown. -/
theorem initiateCall_media_failure (s : State) (p : Peer) (callType name : String)
    (placed : PlaceResult) (hp : s.peer = some p)
    (hnonempty : jsTrim s.friendEmailValue ≠ "")
    (hshape : emailRegexTest (jsTrim s.friendEmailValue) = true)
    (hother : jsTrim s.friendEmailValue ≠ p.id)
    (hnomedia : s.localStream = none) :
    (initiateCall s callType (.failed name) placed).error = none ∧
      (initiateCall s callType (.failed name) placed).state.effects
        = s.effects ++ [Effect.getUserMedia] ∧
      (initiateCall s callType (.failed name) placed).state.currentCall = s.currentCall ∧
      (initiateCall s callType (.failed name) placed).state.localStorage = s.localStorage ∧
      (initiateCall s callType (.failed name) placed).state.recentContactsShown
        = s.recentContactsShown ∧
      (initiateCall s callType (.failed name) placed).state.localStream = none ∧
      (initiateCall s callType (.failed name) placed).state.alertModalHidden = false ∧
      (initiateCall s callType (.failed name) placed).state.alertTitleText = "Media Required" ∧
      (initiateCall s callType (.failed name) placed).state.alertMessageText
        = "Camera/microphone access is required to make calls" := by
  simp [initiateCall, hp, hnonempty, hshape, hother, hnomedia, initializeLocalMedia,
    localMediaSettled, requestLocalMedia, showAlert, Outcome.ok]

/-- C7, for an audio call to `alice@example.com` from `readyNoMedia`, permission denied. -/
theorem initiateCall_media_failure_witness :
    readyNoMedia.currentCall = none ∧
      (initiateCall { readyNoMedia with friendEmailValue := "alice@example.com" } "audio"
        (.failed "NotAllowedError") (.handle carolCall)).state.effects
        = readyNoMedia.effects ++ [Effect.getUserMedia] ∧
      (initiateCall { readyNoMedia with friendEmailValue := "alice@example.com" } "audio"
        (.failed "NotAllowedError") (.handle carolCall)).state.currentCall = none :=
  ⟨by decide,
    (initiateCall_media_failure { readyNoMedia with friendEmailValue := "alice@example.com" }
      ⟨"me@example.com"⟩ "audio" "NotAllowedError" (.handle carolCall) (by decide) (by decide)
      (by decide) (by decide) (by decide)).2.1,
    (initiateCall_media_failure { readyNoMedia with friendEmailValue := "alice@example.com" }
      ⟨"me@example.com"⟩ "audio" "NotAllowedError" (.handle carolCall) (by decide) (by decide)
      (by decide) (by decide) (by decide)).2.2.1.trans (by decide)⟩

/-- C8 as stated fails: Bob's offer is ringing in `readyNoMedia`, the user accepts, media
acquisition fails; `close()` is never invoked on Bob's handle and `currentCall` is still
Bob's call, not null. -/
theorem accept_media_failure_keeps_call :
    (acceptIncomingCall (handleIncomingCall readyNoMedia bobCall) bobCall
        (.failed "NotAllowedError")).currentCall = some bobCall ∧
      (acceptIncomingCall (handleIncomingCall readyNoMedia bobCall) bobCall
        (.failed "NotAllowedError")).currentCall ≠ none ∧
      Effect.callClose bobCall.id ∉
        (acceptIncomingCall (handleIncomingCall readyNoMedia bobCall) bobCall
          (.failed "NotAllowedError")).effects := by
  decide

/-- C8, amended: an inbound `call` is ringing and no local media is held.  A click on accept
only asks for the media (once per listener) and waits: the prompt stays open and `call` stays
the current call.  When an acquisition fails, in whatever state `t` the session then is, and
still no local media is held, the resumed `acceptIncomingCall` (of either listener) shows the
alert "Media Required", hides the prompt and changes nothing else: it answers nothing, closes
nothing and does not assign `currentCall`.  So when no other event intervenes the call is not
auto-rejected: `currentCall` still holds it, and the media requests are the only things
asked of a collaborator. -/
theorem accept_media_failure (s t : State) (call : Call) (arg : CallArg) (name : String)
    (hnomedia : s.localStream = none) (hstill : t.localStream = none) :
    (clickAccept (handleIncomingCall s call)).effects
        = s.effects ++ [Effect.getUserMedia, Effect.getUserMedia] ∧
      (clickAccept (handleIncomingCall s call)).incomingCallModalHidden = false ∧
      (clickAccept (handleIncomingCall s call)).currentCall = some call ∧
      acceptIncomingCallResume t arg (.failed name)
        = { t with
              alertTitleText := "Media Required"
              alertMessageText := "Camera/microphone access is required to accept calls"
              alertModalHidden := false
              incomingCallModalHidden := true } ∧
      (acceptIncomingCallResume t arg (.failed name)).effects = t.effects ∧
      (acceptIncomingCallResume t arg (.failed name)).currentCall = t.currentCall ∧
      (acceptIncomingCallResume
        (acceptIncomingCallResume (clickAccept (handleIncomingCall s call)) .event
          (.failed name)) (.handle call) (.failed name)).currentCall = some call ∧
      (acceptIncomingCallResume
        (acceptIncomingCallResume (clickAccept (handleIncomingCall s call)) .event
          (.failed name)) (.handle call) (.failed name)).effects
        = s.effects ++ [Effect.getUserMedia, Effect.getUserMedia] := by
  have hresume : ∀ (u : State) (a : CallArg), u.localStream = none →
      acceptIncomingCallResume u a (.failed name)
        = { u with
              alertTitleText := "Media Required"
              alertMessageText := "Camera/microphone access is required to accept calls"
              alertModalHidden := false
              incomingCallModalHidden := true } := by
    intro u a hu
    simp [acceptIncomingCallResume, acceptIncomingCallRest, localMediaSettled, showAlert, hu]
  have hclick : clickAccept (handleIncomingCall s call)
      = requestLocalMedia (requestLocalMedia (handleIncomingCall s call)) := by
    simp [clickAccept, acceptIncomingCallBegin, requestLocalMedia, handleIncomingCall, hnomedia]
  have hclickmedia : (clickAccept (handleIncomingCall s call)).localStream = none := by
    rw [hclick]; exact hnomedia
  have hfirst := hresume _ .event hclickmedia
  have hfirstmedia : (acceptIncomingCallResume (clickAccept (handleIncomingCall s call)) .event
      (.failed name)).localStream = none := by
    rw [hfirst]; exact hclickmedia
  have hsecond := hresume _ (.handle call) hfirstmedia
  refine ⟨?_, ?_, ?_, hresume t arg hstill, ?_, ?_, ?_, ?_⟩
  · rw [hclick]; simp [requestLocalMedia, handleIncomingCall]
  · rw [hclick]; rfl
  · rw [hclick]; rfl
  · rw [hresume t arg hstill]
  · rw [hresume t arg hstill]
  · rw [hsecond]
    show (acceptIncomingCallResume (clickAccept (handleIncomingCall s call)) .event
      (.failed name)).currentCall = some call
    rw [hfirst, hclick]; rfl
  · rw [hsecond]
    show (acceptIncomingCallResume (clickAccept (handleIncomingCall s call)) .event
      (.failed name)).effects = _
    rw [hfirst, hclick]; simp [requestLocalMedia, handleIncomingCall]

/-- C8, amended, for Bob's offer in `readyNoMedia`; the failure arrives in the state the click
left. -/
theorem accept_media_failure_witness :
    readyNoMedia.localStream = none ∧
      (clickAccept (handleIncomingCall readyNoMedia bobCall)).localStream = none ∧
      (clickAccept (handleIncomingCall readyNoMedia bobCall)).incomingCallModalHidden = false ∧
      (acceptIncomingCallResume (clickAccept (handleIncomingCall readyNoMedia bobCall))
        (.handle bobCall) (.failed "NotAllowedError")).currentCall = some bobCall :=
  ⟨by decide, by decide,
    (accept_media_failure readyNoMedia (clickAccept (handleIncomingCall readyNoMedia bobCall))
      bobCall (.handle bobCall) "NotAllowedError" (by decide) (by decide)).2.1,
    (accept_media_failure readyNoMedia (clickAccept (handleIncomingCall readyNoMedia bobCall))
      bobCall (.handle bobCall) "NotAllowedError" (by decide) (by decide)).2.2.2.2.2.1.trans
      (by decide)⟩

/-- While an accept waits for the media the prompt is still shown, so the call's expiry can
fire during the wait: it invokes `close()` on Bob's handle and clears `currentCall`, and the
accept resumed afterwards with the failure leaves both as they then are. -/
theorem expiry_during_accept_wait :
    (fireTimeout (clickAccept (handleIncomingCall readyNoMedia bobCall)) (.autoReject bobCall)
        30000).state.currentCall = none ∧
      Effect.callClose bobCall.id ∈
        (fireTimeout (clickAccept (handleIncomingCall readyNoMedia bobCall))
          (.autoReject bobCall) 30000).state.effects ∧
      (acceptIncomingCallResume
        (fireTimeout (clickAccept (handleIncomingCall readyNoMedia bobCall))
          (.autoReject bobCall) 30000).state (.handle bobCall)
        (.failed "NotAllowedError")).currentCall = none ∧
      (acceptIncomingCallResume
        (fireTimeout (clickAccept (handleIncomingCall readyNoMedia bobCall))
          (.autoReject bobCall) 30000).state (.handle bobCall)
        (.failed "NotAllowedError")).effects
        = (fireTimeout (clickAccept (handleIncomingCall readyNoMedia bobCall))
          (.autoReject bobCall) 30000).state.effects := by
  decide

/-! ## Login and logout -/

/-- C10: from a logged-out state whose e-mail input holds a valid identifier (non-empty after
trimming, e-mail shaped), `handleLogin` persists the identifier and shows the call screen, and
`handleLogout` right after it completes normally and gives a logged-out state again: no
persisted identity, `peer`, `localStream` and `currentCall` null, the login screen shown and
the call screen hidden; the peer that login created is destroyed, and the other session
variables and the stored contacts are untouched. -/
theorem login_logout_restores (s : State) (ctorThrows : Bool) (hout : LoggedOut s)
    (hnonempty : jsTrim s.emailInputValue ≠ "")
    (hshape : emailRegexTest (jsTrim s.emailInputValue) = true) :
    (handleLogin s ctorThrows).localStorage.peerCallUserEmail = some (jsTrim s.emailInputValue) ∧
      (handleLogin s ctorThrows).callScreenHidden = false ∧
      (handleLogout (handleLogin s ctorThrows)).error = none ∧
      LoggedOut (handleLogout (handleLogin s ctorThrows)).state ∧
      (ctorThrows = false →
        (handleLogin s ctorThrows).peer = some ⟨jsTrim s.emailInputValue⟩ ∧
        (handleLogout (handleLogin s ctorThrows)).state.effects
          = s.effects ++ [Effect.newPeer (jsTrim s.emailInputValue),
              Effect.peerDestroy (jsTrim s.emailInputValue), Effect.focusEmailInput]) ∧
      (handleLogout (handleLogin s ctorThrows)).state.remoteStream = s.remoteStream ∧
      (handleLogout (handleLogin s ctorThrows)).state.callTimerInterval = s.callTimerInterval ∧
      (handleLogout (handleLogin s ctorThrows)).state.localStorage.peerCallRecentContacts
        = s.localStorage.peerCallRecentContacts := by
  obtain ⟨h1, h2, h3, h4, h5, h6⟩ := hout
  cases ctorThrows <;>
    simp [handleLogin, handleLogout, initializePeer, showCallScreen, updateCallStatus, showAlert,
      LoggedOut, Outcome.ok, h1, h2, h3, h4, hnonempty, hshape]

/-- C10, for `me@example.com` typed into the login form of `loggedOut`. -/
theorem login_logout_restores_witness :
    LoggedOut { loggedOut with emailInputValue := "me@example.com" } ∧
      LoggedOut (handleLogout
        (handleLogin { loggedOut with emailInputValue := "me@example.com" } false)).state :=
  ⟨by decide,
    (login_logout_restores { loggedOut with emailInputValue := "me@example.com" } false
      (by decide) (by decide) (by decide)).2.2.2.1⟩

/-! ## The elapsed-time display -/

/-- For `n < 100`, `padStart(2, '0')` of the decimal text of `n` is its two-digit numeral. -/
theorem padStart2_toString (n : Nat) (h : n < 100) :
    padStart2 (toString (Int.ofNat n)) = twoDigits n := by
  revert n
  decide

/-- A decimal digit character reads back as its digit. -/
theorem digitValue_digitChar (k : Nat) (h : k < 10) : digitValue (Nat.digitChar k) = some k := by
  revert k
  decide

/-- The text written at `now` when `d < 6000` whole seconds have elapsed since `startedAt`. -/
theorem timerText_of_elapsed (startedAt now : Int) (d : Nat)
    (hfrom : startedAt + 1000 * d ≤ now) (hto : now < startedAt + 1000 * (d + 1))
    (hd : d < 6000) :
    timerText (some startedAt) now = twoDigits (d / 60) ++ ":" ++ twoDigits (d % 60) := by
  have hdiff : Int.fdiv (now - startedAt) 1000 = (d : Int) := by
    rw [Int.fdiv_eq_ediv _ (by norm_num)]; omega
  have hmin : Int.fdiv (d : Int) 60 = Int.ofNat (d / 60) := by
    rw [Int.fdiv_eq_ediv _ (by norm_num)]; simp
  have hsec : Int.tmod (d : Int) 60 = Int.ofNat (d % 60) := by
    rw [Int.tmod_eq_emod (by omega) (by norm_num)]; simp
  simp only [timerText, Option.getD_some, hdiff, hmin, hsec]
  rw [padStart2_toString _ (by omega), padStart2_toString _ (by omega)]

/-- Ticks leave `callStartTime` alone. -/
theorem foldl_callTimerTick_callStartTime (earlier : List Int) :
    ∀ s : State, (earlier.foldl callTimerTick s).callStartTime = s.callStartTime := by
  induction earlier with
  | nil => intro s; rfl
  | cons t rest ih => intro s; exact (ih (callTimerTick s t)).trans rfl

/-- The text `mm:ss` built from `d < 6000` seconds reads back as `d`. -/
theorem decodeTimerText_twoDigits (d : Nat) (hd : d < 6000) :
    decodeTimerText (twoDigits (d / 60) ++ ":" ++ twoDigits (d % 60)) = some d := by
  have h1 := digitValue_digitChar (d / 60 / 10) (by omega)
  have h2 := digitValue_digitChar (d / 60 % 10) (by omega)
  have h3 := digitValue_digitChar (d % 60 / 10) (by omega)
  have h4 := digitValue_digitChar (d % 60 % 10) (by omega)
  have hdata : (twoDigits (d / 60) ++ ":" ++ twoDigits (d % 60)).data
      = [Nat.digitChar (d / 60 / 10), Nat.digitChar (d / 60 % 10), ':',
          Nat.digitChar (d % 60 / 10), Nat.digitChar (d % 60 % 10)] := rfl
  unfold decodeTimerText
  rw [hdata]
  simp only [h1, h2, h3, h4]
  have hsep : (':' : Char).toNat = 58 := by decide
  simp only [hsep, if_true, Option.some.injEq]
  omega

/-- C11: while a call is active (start time `startedAt`), a tick at wall-clock time `now`
(milliseconds) with `d` whole seconds elapsed, `d < 6000`, writes the text made of the
two-digit `d / 60`, a colon and the two-digit `d % 60`, whatever ticks fired (or failed to
fire) before it; `d` is `floor((now - startedAt) / 1000)`, and the text decodes back to
`d`. -/
theorem callTimerTick_shows_elapsed (s : State) (startedAt now : Int) (earlier : List Int)
    (d : Nat) (hactive : s.callStartTime = some startedAt)
    (hfrom : startedAt + 1000 * d ≤ now) (hto : now < startedAt + 1000 * (d + 1))
    (hd : d < 6000) :
    Int.fdiv (now - startedAt) 1000 = d ∧
      (callTimerTick (earlier.foldl callTimerTick s) now).callTimerText
        = twoDigits (d / 60) ++ ":" ++ twoDigits (d % 60) ∧
      decodeTimerText (callTimerTick (earlier.foldl callTimerTick s) now).callTimerText
        = some d := by
  have htext : (callTimerTick (earlier.foldl callTimerTick s) now).callTimerText
      = twoDigits (d / 60) ++ ":" ++ twoDigits (d % 60) := by
    show timerText (earlier.foldl callTimerTick s).callStartTime now = _
    rw [foldl_callTimerTick_callStartTime, hactive]
    exact timerText_of_elapsed startedAt now d hfrom hto hd
  refine ⟨?_, htext, ?_⟩
  · rw [Int.fdiv_eq_ediv _ (by norm_num)]; omega
  · rw [htext]; exact decodeTimerText_twoDigits d hd

/-- C11, in the first call (started at 1000): after only two earlier ticks, a late tick at
6250 reads "00:05". -/
theorem callTimerTick_shows_elapsed_witness :
    firstCallActive.callStartTime = some 1000 ∧
      (callTimerTick ([2000, 3100].foldl callTimerTick firstCallActive) 6250).callTimerText
        = "00:05" ∧
      decodeTimerText
        (callTimerTick ([2000, 3100].foldl callTimerTick firstCallActive) 6250).callTimerText
        = some 5 :=
  ⟨by decide,
    (callTimerTick_shows_elapsed firstCallActive 1000 6250 [2000, 3100] 5 (by decide)
      (by decide) (by decide) (by decide)).2.1.trans (by decide),
    (callTimerTick_shows_elapsed firstCallActive 1000 6250 [2000, 3100] 5 (by decide)
      (by decide) (by decide) (by decide)).2.2⟩

/-- C12 as stated fails: the first call ended showing "01:23"; when the second call becomes
active the timer is shown again and, before its first tick, still reads "01:23", not
"00:00". -/
theorem second_call_timer_not_reset :
    firstCallEnded.callTimerText = "01:23" ∧ firstCallEnded.currentCall = none ∧
      secondCallActive.currentCall = some { aliceCall with id := 5 } ∧
      secondCallActive.callStartTime = some 200000 ∧
      secondCallActive.callTimerHidden = false ∧
      secondCallActive.callTimerText = "01:23" ∧
      secondCallActive.callTimerText ≠ "00:00" := by
  decide

/-- The function `endCall` never writes the timer text. -/
theorem endCall_callTimerText (s : State) : (endCall s).state.callTimerText = s.callTimerText := by
  have h : (stopCallTimer s).callTimerText = s.callTimerText := by
    unfold stopCallTimer; split <;> rfl
  cases hc : (stopCallTimer s).currentCall with
  | none =>
    cases hv : (stopCallTimer s).remoteVideoSrc <;>
      simp [endCall, hc, hv, Outcome.ok, updateCallStatus, updateConnectionStatus, h]
  | some c =>
    cases ht : c.closeThrows
    · cases hv : (stopCallTimer s).remoteVideoSrc <;>
        simp [endCall, hc, hv, ht, Outcome.ok, updateCallStatus, updateConnectionStatus, h]
    · simp [endCall, hc, ht, Outcome.threw, h]

/-- C12, amended: when the remote stream is received the timer is made visible and the start
time is set, but the timer text is not written: right after `startCallTimer` it is the text
the element held before, and `endCall` does not reset it either, so a call after an earlier
one starts on that call's last reading.  The script first writes the text at the first tick;
on time, one second after the start, that is "00:01". -/
theorem startCallTimer_keeps_text (s : State) (call : Call) (stream : MediaStream) (now : Int) :
    (startCallTimer s now).callTimerText = s.callTimerText ∧
      (onCallStream s call stream now).callTimerText = s.callTimerText ∧
      (onCallStream s call stream now).callTimerHidden = false ∧
      (onCallStream s call stream now).callStartTime = some now ∧
      (endCall s).state.callTimerText = s.callTimerText ∧
      (callTimerTick (onCallStream s call stream now) (now + 1000)).callTimerText = "00:01" := by
  have hkeep : (onCallStream s call stream now).callTimerText = s.callTimerText := by
    simp only [onCallStream, startCallTimer, updateConnectionStatus, updateCallStatus,
      handleRemoteStream]
    rfl
  have hstart : (onCallStream s call stream now).callStartTime = some now := rfl
  refine ⟨rfl, hkeep, rfl, hstart, endCall_callTimerText s, ?_⟩
  show timerText (onCallStream s call stream now).callStartTime (now + 1000) = _
  rw [hstart, timerText_of_elapsed now (now + 1000) 1 (by omega) (by omega) (by omega)]
  decide

end PeerCall
